import Mathlib

/-!
Verification of the DXF line-extraction / machine-format pipeline of the
pyslm_dxf_generator repository.

The Python sources manipulate 2D points (tuples of floats), DXF modelspaces
(lists of entities, queried by entity type), and flat text files.  The shallow
embedding below models points as pairs of rationals (every Python float is an
exact rational), a DXF modelspace as a list of entities in document order, file
reads as `Except`/`Option` values, and written files as the strings or line
lists produced.  Console output (`print`/`logging.error`) is modelled as a list
of message strings returned beside the main result.
-/

/-- A 2D point, as the Python `(x, y)` coordinate tuples. -/
abbrev Point : Type := ℚ × ℚ

/-- A line segment as accumulated by the extraction loops: the Python code
appends the two-element list `[start_point, end_point]`. -/
abbrev Seg : Type := List Point

/-- Default point used to interpret Python list indexing in loops whose bounds
guarantee the index is in range. -/
def dfltPt : Point := (0, 0)

/-- A DXF modelspace entity.  `lwpolyline` carries its vertex list and closed
flag; `polyline` carries its vertex stream, where a vertex without a
`dxf.location` attribute is `none`; `line` carries start and end points;
`circle` and `other` stand for the remaining entity kinds the scripts may
produce or encounter. -/
inductive Entity : Type
  | lwpolyline (points : List Point) (isClosed : Bool)
  | polyline (vertices : List (Option Point)) (isClosed : Bool)
  | line (start stop : Point)
  | circle (center : Point) (radius : ℚ)
  | other (kind : String)
deriving DecidableEq

/-- A DXF modelspace: the document-ordered list of its entities. -/
abbrev Msp : Type := List Entity

/-- An error raised by `ezdxf.readfile`: either `ezdxf.DXFStructureError` or
any other exception (carrying its message). -/
inductive DxfError : Type
  | structureError
  | unexpected (msg : String)
deriving DecidableEq

/-- Single-quote a string, as the Python error f-strings do. -/
def quoteS (s : String) : String := "\x27" ++ s ++ "\x27"

/-- The entities returned by `msp.query('LWPOLYLINE')`: document order,
restricted to LWPOLYLINE entities, as (points, is_closed). -/
def queryLwpolyline (msp : Msp) : List (List Point × Bool) :=
  msp.filterMap (fun e =>
    match e with
    | .lwpolyline pts c => some (pts, c)
    | _ => none)

/-- The entities returned by `msp.query('POLYLINE')`. -/
def queryPolyline (msp : Msp) : List (List (Option Point) × Bool) :=
  msp.filterMap (fun e =>
    match e with
    | .polyline vs c => some (vs, c)
    | _ => none)

/-- The entities returned by `msp.query('LINE')`. -/
def queryLine (msp : Msp) : List (Point × Point) :=
  msp.filterMap (fun e =>
    match e with
    | .line s t => some (s, t)
    | _ => none)

/-- Segments appended for one polyline vertex list by the shared loop body of
`get_line_segments_from_dxf` (modules/geometry_processing.py,
support_DXF_to_clean_DXF.py, unified_pyslm_pipeline.py) and of
`convert_dxf_to_lines_only` (support_DXF_to_machine_TXT_or_DXF.py):
`if len(points) >= 2`, one segment per consecutive index pair, and for a
closed polyline with more than two points the closing segment from
`points[-1]` to `points[0]`. -/
def segsOfPolyPoints (pts : List Point) (isClosed : Bool) : List Seg :=
  if 2 ≤ pts.length then
    ((List.range (pts.length - 1)).map (fun i =>
      [((pts.getD i dfltPt).1, (pts.getD i dfltPt).2),
       ((pts.getD (i + 1) dfltPt).1, (pts.getD (i + 1) dfltPt).2)]))
    ++ (if isClosed ∧ 2 < pts.length then
          [[((pts.getLastD dfltPt).1, (pts.getLastD dfltPt).2),
            ((pts.headD dfltPt).1, (pts.headD dfltPt).2)]]
        else [])
  else []

/-- Segments appended for one LWPOLYLINE by the extraction loop inside
`convert_dxf_to_lines_only_machine_format` (modules/geometry_processing.py
lines 145-155 and the identical copy in unified_pyslm_pipeline.py lines
210-220).  The closing segment starts at `(points[-1][0], points[0][1])` —
the y coordinate is taken from `points[0]`, not `points[-1]`. -/
def segsOfLwpolylineMachine (pts : List Point) (isClosed : Bool) : List Seg :=
  if 2 ≤ pts.length then
    ((List.range (pts.length - 1)).map (fun i =>
      [((pts.getD i dfltPt).1, (pts.getD i dfltPt).2),
       ((pts.getD (i + 1) dfltPt).1, (pts.getD (i + 1) dfltPt).2)]))
    ++ (if isClosed ∧ 2 < pts.length then
          [[((pts.getLastD dfltPt).1, (pts.headD dfltPt).2),
            ((pts.headD dfltPt).1, (pts.headD dfltPt).2)]]
        else [])
  else []

/-- The body of `get_line_segments_from_dxf` after a successful read, shared
verbatim by modules/geometry_processing.py, support_DXF_to_clean_DXF.py and
unified_pyslm_pipeline.py, and identical to the extraction part of
`convert_dxf_to_lines_only` in support_DXF_to_machine_TXT_or_DXF.py:
LWPOLYLINE entities first, then POLYLINE entities (keeping only vertices with
a `dxf.location`), then LINE entities. -/
def extractSegments (msp : Msp) : List Seg :=
  ((queryLwpolyline msp).map (fun pc => segsOfPolyPoints pc.1 pc.2)).flatten
  ++ ((queryPolyline msp).map (fun vc => segsOfPolyPoints (vc.1.filterMap id) vc.2)).flatten
  ++ (queryLine msp).map (fun st => [(st.1.1, st.1.2), (st.2.1, st.2.2)])

/-- `get_line_segments_from_dxf`: on a read error it logs a message and
returns the empty list; otherwise it extracts the segments.  The second
component collects the `logging.error` output. -/
def getLineSegmentsFromDxf (dxfPath : String) (readResult : Except DxfError Msp) :
    List Seg × List String :=
  match readResult with
  | .error .structureError =>
      ([], ["Invalid DXF structure for " ++ quoteS dxfPath ++ ". Skipping."])
  | .error (.unexpected e) =>
      ([], ["Unexpected error reading " ++ quoteS dxfPath ++ ": " ++ e ++ ". Skipping."])
  | .ok msp => (extractSegments msp, [])

/-- The extraction loop inside `convert_dxf_to_lines_only_machine_format`
(modules/geometry_processing.py lines 144-175 and the identical copy in
unified_pyslm_pipeline.py lines 209-240): as `extractSegments` but with the
machine variant of the LWPOLYLINE closing segment. -/
def machineExtractSegments (msp : Msp) : List Seg :=
  ((queryLwpolyline msp).map (fun pc => segsOfLwpolylineMachine pc.1 pc.2)).flatten
  ++ ((queryPolyline msp).map (fun vc => segsOfPolyPoints (vc.1.filterMap id) vc.2)).flatten
  ++ (queryLine msp).map (fun st => [(st.1.1, st.1.2), (st.2.1, st.2.2)])

/-- Round to the nearest integer, ties to even — the rounding used by Python
both for `round(x, n)` and for `f"{x:.3f}"` formatting, applied to the exact
rational value of the float. -/
def roundHalfEven (q : ℚ) : ℤ :=
  let f : ℤ := q.floor
  let r : ℚ := q - (f : ℚ)
  if r < mkRat 1 2 then f
  else if mkRat 1 2 < r then f + 1
  else if f % 2 = 0 then f else f + 1

/-- Python `round(x, 6)` on the exact rational value of `x`. -/
def round6 (x : ℚ) : ℚ := mkRat (roundHalfEven (x * 1000000)) 1000000

/-- The decimal digit character for `n % 10`. -/
def digitChar10 (n : ℕ) : Char := Char.ofNat (48 + n % 10)

/-- The three fractional digits printed by `f"{x:.3f}"`: the zero-padded
decimal rendering of a number below 1000. -/
def frac3 (n : ℕ) : String :=
  String.mk [digitChar10 (n / 100), digitChar10 (n / 10), digitChar10 n]

/-- Python `f"{x:.3f}"` on the exact rational value of `x`: sign, integer
part, a dot, and exactly three fractional digits (ties rounded to even; a
negative value rounding to zero keeps its minus sign). -/
def fmt3 (q : ℚ) : String :=
  let n : ℤ := roundHalfEven (q * 1000)
  (if q < 0 then "-" else "")
    ++ toString (n.natAbs / 1000) ++ "." ++ frac3 (n.natAbs % 1000)

/-- The text written for one segment by the machine-format writers: the
f-string in `convert_dxf_to_lines_only_machine_format`
(modules/geometry_processing.py line 184, unified_pyslm_pipeline.py line 249)
and, split over successive writes, `convert_dxf_to_lines_only`
(support_DXF_to_machine_TXT_or_DXF.py lines 120-132). -/
def machineSegmentWrite (segment : Seg) : String :=
  let s := segment.getD 0 dfltPt
  let e := segment.getD 1 dfltPt
  "0\nLINE\n8\n0\n10\n" ++ fmt3 s.1 ++ "\n20\n" ++ fmt3 s.2 ++ "\n11\n"
    ++ fmt3 e.1 ++ "\n21\n" ++ fmt3 e.2 ++ "\n0\n"

/-- The successive `f.write` calls of the machine-format writers: the
SECTION/ENTITIES header, one block per segment in list order, and the
ENDSEC/EOF footer. -/
def machineWrites (segs : List Seg) : List String :=
  ["0\nSECTION\n2\nENTITIES\n"] ++ segs.map machineSegmentWrite
    ++ ["0\nENDSEC\n0\nEOF\n"]

/-- The file content produced by a sequence of `f.write` calls on a file
opened with mode `w`: the writes concatenated in order. -/
def writeAll (writes : List String) : String :=
  writes.foldl (fun acc w => acc ++ w) ""

/-- `convert_dxf_to_lines_only_machine_format`
(modules/geometry_processing.py lines 126-187, identical copy in
unified_pyslm_pipeline.py lines 191-252).  `readResult = none` models a
missing input file; an `Except` error models a failing `ezdxf.readfile`.
Returns the written file content (or `none` when no file is written) and the
printed messages. -/
def convertDxfToLinesOnlyMachineFormat (inputDxfPath : String)
    (readResult : Option (Except DxfError Msp)) : Option String × List String :=
  match readResult with
  | none =>
      (none, ["Error: Input DXF file not found at " ++ quoteS inputDxfPath])
  | some (.error .structureError) =>
      (none, ["Error: Invalid DXF file structure for " ++ quoteS inputDxfPath ++ ". Skipping."])
  | some (.error (.unexpected e)) =>
      (none, ["An unexpected error occurred reading " ++ quoteS inputDxfPath ++ ": " ++ e ++ ". Skipping."])
  | some (.ok msp) =>
      (some (writeAll (machineWrites (machineExtractSegments msp))), [])

/-- `create_simplified_dxf_for_laser` (modules/geometry_processing.py lines
109-124, support_DXF_to_clean_DXF.py lines 93-116, unified_pyslm_pipeline.py
lines 174-189): builds a fresh document and calls `msp.add_line` once per
segment with both endpoints rounded by `round(., 6)`.  The result is the
modelspace of the document saved. -/
def createSimplifiedDxfForLaser (lineSegments : List Seg) : List Entity :=
  lineSegments.foldl (fun msp segment =>
    let s := segment.getD 0 dfltPt
    let e := segment.getD 1 dfltPt
    msp ++ [Entity.line (round6 s.1, round6 s.2) (round6 e.1, round6 e.2)]) []

/-- Segments appended for one polyline vertex list by the loops of
`get_dxf_line_segments` (manufacture_parameters.py): the LWPOLYLINE case has
no length guard (the `range` bound already yields nothing for fewer than two
points) and appends two-point tuples. -/
def segsOfPolyPointsPairs (pts : List Point) (isClosed : Bool) :
    List (Point × Point) :=
  ((List.range (pts.length - 1)).map (fun i =>
    (((pts.getD i dfltPt).1, (pts.getD i dfltPt).2),
     ((pts.getD (i + 1) dfltPt).1, (pts.getD (i + 1) dfltPt).2))))
  ++ (if isClosed ∧ 2 < pts.length then
        [(((pts.getLastD dfltPt).1, (pts.getLastD dfltPt).2),
          ((pts.headD dfltPt).1, (pts.headD dfltPt).2))]
      else [])

/-- The POLYLINE pass of `get_dxf_line_segments` (manufacture_parameters.py
lines 35-43).  The vertex loop reads `vertex.dxf.location` without a
`hasattr` guard, so a vertex without a location raises `AttributeError`,
which the surrounding `try` catches: the function then returns the segments
accumulated so far and the remaining polylines are not processed. -/
def polylinePassPairs :
    List (List (Option Point) × Bool) → List (Point × Point) → List (Point × Point)
  | [], acc => acc
  | (vs, c) :: rest, acc =>
    if vs.all (fun v => v.isSome) then
      let pts := vs.filterMap id
      polylinePassPairs rest
        (acc ++ (if 2 ≤ pts.length then segsOfPolyPointsPairs pts c else []))
    else acc

/-- `get_dxf_line_segments` (manufacture_parameters.py lines 10-48): LINE
entities first, then LWPOLYLINE, then POLYLINE; any exception (including a
failing read) is silently swallowed and the segments accumulated so far are
returned. -/
def getDxfLineSegments (readResult : Except DxfError Msp) : List (Point × Point) :=
  match readResult with
  | .error _ => []
  | .ok msp =>
    let lineSegs := (queryLine msp).map (fun st =>
      ((st.1.1, st.1.2), (st.2.1, st.2.2)))
    let lwSegs := ((queryLwpolyline msp).map
      (fun pc => segsOfPolyPointsPairs pc.1 pc.2)).flatten
    polylinePassPairs (queryPolyline msp) (lineSegs ++ lwSegs)

/-- A value of the Python parameter dictionaries: a string, an int, or a
float (held as its exact rational value). -/
inductive PVal : Type
  | s (v : String)
  | i (v : ℤ)
  | q (v : ℚ)
deriving DecidableEq

/-- One line of a generated parameter file: either a `[KEY]` line or a value
line (the value held symbolically rather than as Python `str(value)` text). -/
inductive FLine : Type
  | key (k : String)
  | val (v : PVal)
deriving DecidableEq

/-- Python `c.lower()` on a character (ASCII). -/
def pyLowerChar (c : Char) : Char := c.toLower

/-- Python `s.lower()`. -/
def pyLower (s : String) : String := String.mk (s.data.map pyLowerChar)

/-- Python `s.endswith(suffix)`. -/
def strEndsWith (s suffix : String) : Bool :=
  List.isPrefixOf suffix.data.reverse s.data.reverse

/-- The filename filter `f.lower().endswith(('.dxf', '.txt'))` used by
`generate_manufacturing_parameters_file` and `generate_auto_parameters_file`. -/
def matchesDxfOrTxt (f : String) : Bool :=
  strEndsWith (pyLower f) ".dxf" || strEndsWith (pyLower f) ".txt"

/-- Insert into a sorted list, keeping ascending order (stable). -/
def insertStr (x : String) : List String → List String
  | [] => [x]
  | y :: ys => if x ≤ y then x :: y :: ys else y :: insertStr x ys

/-- Python `sorted` on a list of strings: a stable ascending sort. -/
def sortStrings : List String → List String
  | [] => []
  | x :: xs => insertStr x (sortStrings xs)

/-- The `final_parameters` dictionary shared verbatim by
`generate_manufacturing_parameters_file` (modules/geometry_processing.py
lines 216-239, unified_pyslm_pipeline.py lines 282-305) and
`generate_auto_parameters_file` (manufacture_parameters.py lines 112-136), in
insertion order.  MINX, MAXX, MINY, MAXY are the hardcoded constants
-7.9, 7.9, -7.9, 7.9. -/
def fixedParameters (partName : String) (layerThickness : ℚ)
    (numberOfLayers : ℤ) : List (String × PVal) :=
  [("PART NAME", .s partName),
   ("MINX", .q (mkRat (-79) 10)),
   ("MAXX", .q (mkRat 79 10)),
   ("MINY", .q (mkRat (-79) 10)),
   ("MAXY", .q (mkRat 79 10)),
   ("NUMBER OF LAYERS", .i numberOfLayers),
   ("LAYER THICKNESS", .q layerThickness),
   ("HATCH POWER 1", .i 40),
   ("HATCH SPEED 1", .i 170),
   ("VBPP1", .i 1),
   ("MAGNIFICATION 1", .q 1),
   ("HATCH POWER 2", .i 42),
   ("HATCH SPEED 2", .i 1202),
   ("VBPP2", .i 2),
   ("MAGNIFICATION 2", .q 1),
   ("HATCH POWER 3", .i 43),
   ("HATCH SPEED 3", .i 1203),
   ("VBPP3", .i 3),
   ("MAGNIFICATION 3", .q 1),
   ("NUMBER OF PASSES", .i 1),
   ("CONTOUR POWER", .i 11),
   ("CONTOUR SPEED", .i 1001)]

/-- The write loop `for key, value in final_parameters.items(): f.write(f"[{key}]\n"); f.write(f"{value}\n")`:
two lines per entry, in dictionary order. -/
def paramLines (ps : List (String × PVal)) : List FLine :=
  ps.foldl (fun acc kv => acc ++ [FLine.key kv.1, FLine.val kv.2]) []

/-- `generate_manufacturing_parameters_file` (modules/geometry_processing.py
lines 189-251, identical copy in unified_pyslm_pipeline.py lines 254-317).
`inputListing = none` models a missing input folder; otherwise it is the
`os.listdir` result.  Returns the written file lines (or `none` when no file
is written) and the printed messages. -/
def generateManufacturingParametersFile (inputDxfFolderPath : String)
    (inputListing : Option (List String)) (outputFolder : String)
    (partName : String) (layerThickness : ℚ) : Option (List FLine) × List String :=
  match inputListing with
  | none =>
      (none, ["Error: Input DXF folder not found at " ++ quoteS inputDxfFolderPath
              ++ ". Cannot generate parameters file."])
  | some listing =>
    let dxfFiles := sortStrings (listing.filter matchesDxfOrTxt)
    if dxfFiles.isEmpty then
      (none, ["No DXF or TXT files found in " ++ quoteS inputDxfFolderPath
              ++ ". Cannot generate parameters file."])
    else
      let numberOfLayers : ℤ := dxfFiles.length
      (some (paramLines (fixedParameters partName layerThickness numberOfLayers)),
       ["Successfully generated manufacturing parameters file: "
         ++ outputFolder ++ "/" ++ partName ++ "_auto_machine_parameters.txt"])

/-- Python `os.path.basename` for forward-slash paths, used for the default
part name in `generate_auto_parameters_file`. -/
def basenameOf (p : String) : String := (p.splitOn "/").getLastD p

/-- Python dict item assignment `d[key] = value`: an existing key keeps its
position and gets the new value; a new key is appended. -/
def dictSetItem (d : List (String × PVal)) (k : String) (v : PVal) :
    List (String × PVal) :=
  if d.any (fun e => e.1 == k) then
    d.map (fun e => if e.1 == k then (e.1, v) else e)
  else d ++ [(k, v)]

/-- The override loop `for key, value in machine_settings.items(): final_parameters[key] = value`. -/
def applySettings (d : List (String × PVal)) (ms : List (String × PVal)) :
    List (String × PVal) :=
  ms.foldl (fun acc kv => dictSetItem acc kv.1 kv.2) d

/-- `generate_auto_parameters_file` (manufacture_parameters.py lines 50-155).
The folder is modelled as the listed filenames paired with the read result of
each file; the loop body calls `get_dxf_line_segments` and discards its
result, and the bounding-box accumulation over the segments (source lines
96-100) is commented out, so `min_x` stays `inf`, the warning is always
printed, and no geometry influences the output.  Returns the written file
lines (or `none`) and the printed messages. -/
def generateAutoParametersFile (inputDxfFolderPath : String)
    (folderFiles : Option (List (String × Except DxfError Msp)))
    (outputFilePath : String) (layerThickness : ℚ) (partName : Option String)
    (machineSettings : Option (List (String × PVal))) :
    Option (List FLine) × List String :=
  match folderFiles with
  | none =>
      (none, ["Error: Input DXF folder not found at " ++ quoteS inputDxfFolderPath])
  | some files =>
    let dxfFiles := sortStrings ((files.map Prod.fst).filter matchesDxfOrTxt)
    if dxfFiles.isEmpty then
      (none, ["No DXF or TXT files found in " ++ quoteS inputDxfFolderPath ++ "."])
    else
      let numberOfLayers : ℤ := dxfFiles.length
      let pn := partName.getD (basenameOf inputDxfFolderPath)
      let finalParameters :=
        applySettings (fixedParameters pn layerThickness numberOfLayers)
          (machineSettings.getD [])
      (some (paramLines finalParameters),
       ["Warning: No valid geometry found in DXF/TXT files. Bounding box defaulted to (0,0,0,0).",
        "Successfully generated manufacturing parameters file: " ++ outputFilePath])

/-- A PySLM `Layer` as consumed by `export_layer_to_dxf`: the coordinate
lists of its contour geometries, hatch geometries and points geometries. -/
structure PyLayer : Type where
  contours : List (List Point)
  hatches : List (List Point)
  pointsGeoms : List (List Point)

/-- The hatch loop of `export_layer_to_dxf` (modules/geometry_processing.py
lines 48-52, unified_pyslm_pipeline.py lines 113-117) on one geometry:
`for i in range(0, len(coords), 2): start, end = map(tuple, coords[i:i+2]); msp.add_line(start, end)`.
A final one-element slice makes the two-name unpacking raise `ValueError`. -/
def pairHatchLines : List Point → Except String (List Entity)
  | [] => .ok []
  | [_] => .error "ValueError: not enough values to unpack (expected 2, got 1)"
  | a :: b :: rest =>
    match pairHatchLines rest with
    | .ok es => .ok (Entity.line a b :: es)
    | .error m => .error m

/-- The hatch-geometry pass of `export_layer_to_dxf`: one `pairHatchLines`
run per hatch geometry, in order; an exception aborts the function. -/
def hatchEntitiesOf : List (List Point) → Except String (List Entity)
  | [] => .ok []
  | g :: gs =>
    match pairHatchLines g with
    | .error m => .error m
    | .ok es =>
      match hatchEntitiesOf gs with
      | .error m => .error m
      | .ok rest => .ok (es ++ rest)

/-- `export_layer_to_dxf` (modules/geometry_processing.py lines 36-58,
identical copy in unified_pyslm_pipeline.py lines 101-123): contours as
closed LWPOLYLINEs, hatch coordinates pairwise as LINEs, points as circles of
radius 0.02.  The result is the modelspace of the saved document, or the
uncaught exception raised by the hatch unpacking. -/
def exportLayerToDxf (layer : PyLayer) : Except String (List Entity) :=
  let contourEntities := layer.contours.map (fun pts => Entity.lwpolyline pts true)
  match hatchEntitiesOf layer.hatches with
  | .error m => .error m
  | .ok hatchEntities =>
    .ok (contourEntities ++ hatchEntities
      ++ (layer.pointsGeoms.map (fun ps =>
            ps.map (fun p => Entity.circle p (mkRat 2 100)))).flatten)

/-- `LAYER_THICKNESS = 0.03` from modules/parameters.py. -/
def LAYER_THICKNESS : ℚ := mkRat 3 100

/-- `np.arange(start, stop, step)` for a positive rational step: the values
`start + k * step` for `0 ≤ k < ⌈(stop - start) / step⌉`. -/
def arangeQ (start stop step : ℚ) : List ℚ :=
  (List.range (⌈(stop - start) / step⌉).toNat).map (fun k => start + (k : ℚ) * step)

/-- The per-z loop of `slice_and_export_raw_dxfs` (modules/
geometry_processing.py lines 297-334), abstracted over the slicing and
hatching library calls: `layerGeometryAt z` is the geometry list the loop
body builds for height `z`.  A DXF file named
`{model_name}_layer{layer_idx}.dxf` is exported only when the geometry list
is non-empty, while `layer_idx` is incremented for every z position. -/
def sliceExportLoop {α : Type} (layerGeometryAt : ℚ → List α)
    (modelName : String) (zPositions : List ℚ) : List String :=
  (zPositions.foldl (fun st zPos =>
    let files :=
      if (layerGeometryAt zPos).isEmpty then st.2
      else st.2 ++ [modelName ++ "_layer" ++ toString st.1 ++ ".dxf"]
    (st.1 + 1, files)) ((0 : ℕ), ([] : List String))).2

/-- `slice_and_export_raw_dxfs` (modules/geometry_processing.py lines
253-341).  The part is represented by the z range of its bounding box, the
optional supports by the z range of their combined bounds, and the external
slicing/hatching calls by `layerGeometryAt`.  Returns the list of exported
layer file names, or `none` when the function warns and returns early
because the overall height is zero or negative. -/
def sliceAndExportRawDxfs {α : Type} (minZpart maxZpart : ℚ)
    (supportBounds : Option (ℚ × ℚ)) (layerGeometryAt : ℚ → List α)
    (modelName : String) : Option (List String) :=
  let minZsupport := match supportBounds with | some b => b.1 | none => minZpart
  let maxZsupport := match supportBounds with | some b => b.2 | none => maxZpart
  let minZoverall := min minZpart minZsupport
  let maxZoverall := max maxZpart maxZsupport
  let numLayersRaw : ℤ := ⌈(maxZoverall - minZoverall) / LAYER_THICKNESS⌉
  if numLayersRaw = 0 ∧ minZoverall < maxZoverall then
    let zPositions := arangeQ minZoverall (maxZoverall + LAYER_THICKNESS / 2) LAYER_THICKNESS
    let zPositions := if zPositions.length = 0 then [minZoverall] else zPositions
    some (sliceExportLoop layerGeometryAt modelName zPositions)
  else if maxZoverall ≤ minZoverall then
    none
  else
    let zPositions := arangeQ minZoverall (maxZoverall + LAYER_THICKNESS / 2) LAYER_THICKNESS
    some (sliceExportLoop layerGeometryAt modelName zPositions)

/-- The per-segment machine-format template as worded in the specification:
`0\nLINE\n8\n0\n10\n{x1}\n20\n{y1}\n11\n{x2}\n21\n{y2}\n0\n` with every
coordinate formatted to three decimal places. -/
def machineLineTemplate (seg : Point × Point) : String :=
  "0\nLINE\n8\n0\n10\n" ++ fmt3 seg.1.1 ++ "\n20\n" ++ fmt3 seg.1.2
    ++ "\n11\n" ++ fmt3 seg.2.1 ++ "\n21\n" ++ fmt3 seg.2.2 ++ "\n0\n"

/-- Whether an entity is a LINE entity. -/
def isLineEntity : Entity → Bool
  | .line _ _ => true
  | _ => false

theorem consecMapGetD_eq_zip (pts : List Point) :
    (List.range (pts.length - 1)).map (fun i =>
        [((pts.getD i dfltPt).1, (pts.getD i dfltPt).2),
         ((pts.getD (i + 1) dfltPt).1, (pts.getD (i + 1) dfltPt).2)])
      = (pts.zip pts.tail).map (fun ab => [ab.1, ab.2]) := by
  induction pts with
  | nil => simp
  | cons a t ih =>
    cases t with
    | nil => simp
    | cons b t2 =>
      have hstep : (List.range ((a :: b :: t2).length - 1)).map (fun i =>
            [(((a :: b :: t2).getD i dfltPt).1, ((a :: b :: t2).getD i dfltPt).2),
             (((a :: b :: t2).getD (i + 1) dfltPt).1, ((a :: b :: t2).getD (i + 1) dfltPt).2)])
          = [a, b] :: (List.range ((b :: t2).length - 1)).map (fun i =>
            [(((b :: t2).getD i dfltPt).1, ((b :: t2).getD i dfltPt).2),
             (((b :: t2).getD (i + 1) dfltPt).1, ((b :: t2).getD (i + 1) dfltPt).2)]) := by
        rw [show (a :: b :: t2).length - 1 = t2.length + 1 by simp,
          List.range_succ_eq_map, List.map_cons, List.map_map,
          show (b :: t2).length - 1 = t2.length by simp]
        simp [Function.comp_def]
      rw [hstep, ih]
      simp

theorem segsOfPolyPoints_eq_zip (pts : List Point) (c : Bool) :
    segsOfPolyPoints pts c
      = (pts.zip pts.tail).map (fun ab => [ab.1, ab.2])
        ++ (if c = true ∧ 2 < pts.length then
              [[pts.getLastD dfltPt, pts.headD dfltPt]] else []) := by
  unfold segsOfPolyPoints
  by_cases h : 2 ≤ pts.length
  · rw [if_pos h, consecMapGetD_eq_zip]
  · rw [if_neg h]
    cases pts with
    | nil => simp
    | cons a t =>
      cases t with
      | nil => simp
      | cons b t2 =>
        exfalso
        exact h (by simp only [List.length_cons]; omega)

theorem extractSegments_of_lines (lines : List (Point × Point)) :
    extractSegments (lines.map (fun st => Entity.line st.1 st.2))
      = lines.map (fun st => [st.1, st.2]) := by
  have hlw : queryLwpolyline (lines.map (fun st => Entity.line st.1 st.2)) = [] := by
    unfold queryLwpolyline
    rw [List.filterMap_map]
    exact List.filterMap_eq_nil_iff.mpr (fun a _ => rfl)
  have hpl : queryPolyline (lines.map (fun st => Entity.line st.1 st.2)) = [] := by
    unfold queryPolyline
    rw [List.filterMap_map]
    exact List.filterMap_eq_nil_iff.mpr (fun a _ => rfl)
  have hln : queryLine (lines.map (fun st => Entity.line st.1 st.2)) = lines := by
    unfold queryLine
    rw [List.filterMap_map]
    exact List.filterMap_some lines
  unfold extractSegments
  rw [hlw, hpl, hln]
  simp

/-- C3: `get_line_segments_from_dxf` extracts segments from exactly the
LWPOLYLINE, POLYLINE and LINE entity kinds and ignores every other entity
type; a polyline vertex list yields the consecutive-vertex segments in
vertex order (n-1 of them for n vertices), a closed one additionally yields
the last-to-first closing segment if and only if it has more than two
points, and every LINE entity yields exactly one segment from its start
point to its end point. -/
theorem C3_get_line_segments_semantics (msp1 msp2 : Msp) (k : String)
    (cp : Point) (r : ℚ) (pts : List Point) (cl : Bool)
    (vs : List (Option Point)) (lines : List (Point × Point)) (path : String) :
    extractSegments (msp1 ++ [Entity.other k] ++ msp2)
        = extractSegments (msp1 ++ msp2)
    ∧ extractSegments (msp1 ++ [Entity.circle cp r] ++ msp2)
        = extractSegments (msp1 ++ msp2)
    ∧ segsOfPolyPoints pts false = (pts.zip pts.tail).map (fun ab => [ab.1, ab.2])
    ∧ (segsOfPolyPoints pts false).length = pts.length - 1
    ∧ segsOfPolyPoints pts true
        = (pts.zip pts.tail).map (fun ab => [ab.1, ab.2])
          ++ (if 2 < pts.length then [[pts.getLastD dfltPt, pts.headD dfltPt]] else [])
    ∧ (getLineSegmentsFromDxf path (.ok [Entity.lwpolyline pts cl])).1
        = segsOfPolyPoints pts cl
    ∧ (getLineSegmentsFromDxf path (.ok [Entity.polyline vs cl])).1
        = segsOfPolyPoints (vs.filterMap id) cl
    ∧ (getLineSegmentsFromDxf path (.ok (lines.map (fun st => Entity.line st.1 st.2)))).1
        = lines.map (fun st => [st.1, st.2]) := by
  refine ⟨?_, ?_, ?_, ?_, ?_, ?_, ?_, ?_⟩
  · simp [extractSegments, queryLwpolyline, queryPolyline, queryLine,
      List.filterMap_append]
  · simp [extractSegments, queryLwpolyline, queryPolyline, queryLine,
      List.filterMap_append]
  · rw [segsOfPolyPoints_eq_zip]
    simp
  · rw [segsOfPolyPoints_eq_zip]
    simp [List.length_zip]
  · rw [segsOfPolyPoints_eq_zip]
    simp
  · simp [getLineSegmentsFromDxf, extractSegments, queryLwpolyline,
      queryPolyline, queryLine]
  · simp [getLineSegmentsFromDxf, extractSegments, queryLwpolyline,
      queryPolyline, queryLine]
  · simpa [getLineSegmentsFromDxf] using extractSegments_of_lines lines

/-- C1: the four copies of the DXF line-segment extraction routine are not
all equivalent.  On a modelspace holding one closed LWPOLYLINE with points
(0,0), (1,0), (0,1), the extraction loop of the two
`convert_dxf_to_lines_only_machine_format` copies produces the closing
segment ((0,0),(0,0)) — its start y coordinate comes from `points[0]` —
while `get_line_segments_from_dxf` and `convert_dxf_to_lines_only` produce
((0,1),(0,0)); the extracted lists differ. -/
theorem C1_machine_closing_segment_differs :
    extractSegments [Entity.lwpolyline [(0, 0), (1, 0), (0, 1)] true]
        = [[(0, 0), (1, 0)], [(1, 0), (0, 1)], [(0, 1), (0, 0)]]
    ∧ machineExtractSegments [Entity.lwpolyline [(0, 0), (1, 0), (0, 1)] true]
        = [[(0, 0), (1, 0)], [(1, 0), (0, 1)], [(0, 0), (0, 0)]]
    ∧ extractSegments [Entity.lwpolyline [(0, 0), (1, 0), (0, 1)] true]
        ≠ machineExtractSegments [Entity.lwpolyline [(0, 0), (1, 0), (0, 1)] true] :=
  ⟨by decide, by decide, by decide⟩

/-- C4: when reading the input DXF raises an exception (invalid structure or
any other error), `get_line_segments_from_dxf` logs a message and returns
the empty list, and `convert_dxf_to_lines_only_machine_format` prints a
message and writes no output file; neither function propagates the error. -/
theorem C4_read_errors_handled (path : String) (e : DxfError) (msg : String) :
    getLineSegmentsFromDxf path (.error .structureError)
        = ([], ["Invalid DXF structure for " ++ quoteS path ++ ". Skipping."])
    ∧ getLineSegmentsFromDxf path (.error (.unexpected msg))
        = ([], ["Unexpected error reading " ++ quoteS path ++ ": " ++ msg ++ ". Skipping."])
    ∧ (getLineSegmentsFromDxf path (.error e)).1 = []
    ∧ (getLineSegmentsFromDxf path (.error e)).2 ≠ []
    ∧ (convertDxfToLinesOnlyMachineFormat path (some (.error e))).1 = none
    ∧ (convertDxfToLinesOnlyMachineFormat path (some (.error e))).2 ≠ []
    ∧ (convertDxfToLinesOnlyMachineFormat path none).1 = none := by
  refine ⟨rfl, rfl, ?_, ?_, ?_, ?_, rfl⟩ <;>
    cases e <;>
      simp [getLineSegmentsFromDxf, convertDxfToLinesOnlyMachineFormat]

theorem segsOfPolyPoints_shape (pts : List Point) (c : Bool) :
    ∀ s ∈ segsOfPolyPoints pts c, s.length = 2 := by
  intro s hs
  unfold segsOfPolyPoints at hs
  split at hs
  · rcases List.mem_append.mp hs with h | h
    · obtain ⟨i, _, rfl⟩ := List.mem_map.mp h
      rfl
    · split at h
      · rw [List.mem_singleton] at h
        subst h
        rfl
      · exact absurd h (List.not_mem_nil s)
  · exact absurd hs (List.not_mem_nil s)

theorem segsOfLwpolylineMachine_shape (pts : List Point) (c : Bool) :
    ∀ s ∈ segsOfLwpolylineMachine pts c, s.length = 2 := by
  intro s hs
  unfold segsOfLwpolylineMachine at hs
  split at hs
  · rcases List.mem_append.mp hs with h | h
    · obtain ⟨i, _, rfl⟩ := List.mem_map.mp h
      rfl
    · split at h
      · rw [List.mem_singleton] at h
        subst h
        rfl
      · exact absurd h (List.not_mem_nil s)
  · exact absurd hs (List.not_mem_nil s)

theorem extractSegments_shape (msp : Msp) :
    ∀ s ∈ extractSegments msp, s.length = 2 := by
  intro s hs
  unfold extractSegments at hs
  rcases List.mem_append.mp hs with h | h
  · rcases List.mem_append.mp h with h2 | h2
    · obtain ⟨l, hl, hsl⟩ := List.mem_flatten.mp h2
      obtain ⟨pc, _, rfl⟩ := List.mem_map.mp hl
      exact segsOfPolyPoints_shape pc.1 pc.2 s hsl
    · obtain ⟨l, hl, hsl⟩ := List.mem_flatten.mp h2
      obtain ⟨vc, _, rfl⟩ := List.mem_map.mp hl
      exact segsOfPolyPoints_shape _ vc.2 s hsl
  · obtain ⟨st, _, rfl⟩ := List.mem_map.mp h
    rfl

theorem machineExtractSegments_shape (msp : Msp) :
    ∀ s ∈ machineExtractSegments msp, s.length = 2 := by
  intro s hs
  unfold machineExtractSegments at hs
  rcases List.mem_append.mp hs with h | h
  · rcases List.mem_append.mp h with h2 | h2
    · obtain ⟨l, hl, hsl⟩ := List.mem_flatten.mp h2
      obtain ⟨pc, _, rfl⟩ := List.mem_map.mp hl
      exact segsOfLwpolylineMachine_shape pc.1 pc.2 s hsl
    · obtain ⟨l, hl, hsl⟩ := List.mem_flatten.mp h2
      obtain ⟨vc, _, rfl⟩ := List.mem_map.mp hl
      exact segsOfPolyPoints_shape _ vc.2 s hsl
  · obtain ⟨st, _, rfl⟩ := List.mem_map.mp h
    rfl

/-- C6: every element returned by the extraction functions is a segment
pairing exactly two points (each point a pair of two coordinates), for every
input, including a failing read. -/
theorem C6_segment_shape_invariant (path : String)
    (readA readB : Except DxfError Msp) (msp : Msp) :
    ((getLineSegmentsFromDxf path readA).1.all (fun s => s.length == 2)) = true
    ∧ ((machineExtractSegments msp).all (fun s => s.length == 2)) = true
    ∧ ((getDxfLineSegments readB).all
        (fun s => s == ((s.1.1, s.1.2), (s.2.1, s.2.2)))) = true := by
  refine ⟨?_, ?_, ?_⟩
  · rw [List.all_eq_true]
    intro s hs
    match readA, hs with
    | .ok m, hs =>
      simpa using extractSegments_shape m s (by simpa [getLineSegmentsFromDxf] using hs)
  · rw [List.all_eq_true]
    intro s hs
    simpa using machineExtractSegments_shape msp s hs
  · rw [List.all_eq_true]
    intro s _
    exact beq_self_eq_true s

theorem createSimplified_general (segs : List Seg) (acc : List Entity) :
    segs.foldl (fun msp segment =>
        msp ++ [Entity.line
          (round6 (segment.getD 0 dfltPt).1, round6 (segment.getD 0 dfltPt).2)
          (round6 (segment.getD 1 dfltPt).1, round6 (segment.getD 1 dfltPt).2)]) acc
      = acc ++ segs.map (fun segment =>
          Entity.line
            (round6 (segment.getD 0 dfltPt).1, round6 (segment.getD 0 dfltPt).2)
            (round6 (segment.getD 1 dfltPt).1, round6 (segment.getD 1 dfltPt).2)) := by
  induction segs generalizing acc with
  | nil => simp
  | cons s rest ih =>
    rw [List.foldl_cons, ih]
    simp

/-- C5: `create_simplified_dxf_for_laser` produces a modelspace holding
exactly one LINE entity per input segment, in input order, with each
endpoint coordinate rounded to 6 decimal places, and no entity of any other
type. -/
theorem C5_create_simplified_lines_only (pairs : List (Point × Point)) (segs : List Seg) :
    createSimplifiedDxfForLaser (pairs.map (fun pq => [pq.1, pq.2]))
        = pairs.map (fun pq =>
            Entity.line (round6 pq.1.1, round6 pq.1.2) (round6 pq.2.1, round6 pq.2.2))
    ∧ (createSimplifiedDxfForLaser segs).length = segs.length
    ∧ ((createSimplifiedDxfForLaser segs).all isLineEntity) = true := by
  refine ⟨?_, ?_, ?_⟩
  · have h := createSimplified_general (pairs.map (fun pq => [pq.1, pq.2])) []
    refine Eq.trans (show createSimplifiedDxfForLaser (pairs.map (fun pq => [pq.1, pq.2])) = _ from h) ?_
    simp [List.map_map, Function.comp_def]
  · have h := createSimplified_general segs []
    simpa [createSimplifiedDxfForLaser] using congrArg List.length h
  · have h := createSimplified_general segs []
    rw [show createSimplifiedDxfForLaser segs = _ from h]
    rw [List.all_eq_true]
    intro e he
    obtain ⟨s, _, rfl⟩ := List.mem_map.mp (by simpa using he)
    rfl

theorem foldl_strAppend (ws : List String) (a : String) :
    ws.foldl (fun acc w => acc ++ w) a = a ++ String.join ws := by
  induction ws generalizing a with
  | nil => simp [String.join]
  | cons w rest ih =>
    rw [List.foldl_cons, ih]
    have hj : String.join (w :: rest) = w ++ String.join rest := by
      show (w :: rest).foldl (fun r s => r ++ s) "" = w ++ String.join rest
      rw [List.foldl_cons]
      rw [show ("" ++ w) = w from String.empty_append w]
      exact ih w
    rw [hj, String.append_assoc]

theorem strJoin_cons (w : String) (ws : List String) :
    String.join (w :: ws) = w ++ String.join ws := by
  show (w :: ws).foldl (fun r s => r ++ s) "" = w ++ String.join ws
  rw [List.foldl_cons, show ("" ++ w) = w from String.empty_append w]
  exact foldl_strAppend ws w

theorem strJoin_append (l1 l2 : List String) :
    String.join (l1 ++ l2) = String.join l1 ++ String.join l2 := by
  induction l1 with
  | nil => simp [String.join]
  | cons w rest ih =>
    rw [List.cons_append, strJoin_cons, ih, strJoin_cons, String.append_assoc]

/-- C2: for every list of extracted line segments, the machine-format writer
produces exactly the SECTION/ENTITIES header, then for each segment in list
order the fixed group-code template with every coordinate formatted to three
decimal places, then the ENDSEC/EOF footer, and nothing else; `fmt3` always
renders exactly three digits after the decimal point. -/
theorem C2_machine_writer_exact (pairs : List (Point × Point)) (q : ℚ) :
    writeAll (machineWrites (pairs.map (fun pq => [pq.1, pq.2])))
      = "0\nSECTION\n2\nENTITIES\n" ++ String.join (pairs.map machineLineTemplate)
        ++ "0\nENDSEC\n0\nEOF\n"
    ∧ (∃ intPart : String,
        fmt3 q = intPart ++ "." ++ frac3 ((roundHalfEven (q * 1000)).natAbs % 1000)
        ∧ (frac3 ((roundHalfEven (q * 1000)).natAbs % 1000)).length = 3) := by
  constructor
  · show (machineWrites (pairs.map (fun pq => [pq.1, pq.2]))).foldl
        (fun acc w => acc ++ w) "" = _
    rw [foldl_strAppend, String.empty_append]
    unfold machineWrites
    rw [strJoin_append, strJoin_append, strJoin_cons, strJoin_cons]
    have hmap : (pairs.map (fun pq => [pq.1, pq.2])).map machineSegmentWrite
        = pairs.map machineLineTemplate := by
      rw [List.map_map]
      rfl
    rw [hmap]
    simp [String.join, String.append_assoc]
  · exact ⟨(if q < 0 then "-" else "")
      ++ toString ((roundHalfEven (q * 1000)).natAbs / 1000), rfl, rfl⟩

theorem length_insertStr (x : String) (l : List String) :
    (insertStr x l).length = l.length + 1 := by
  induction l with
  | nil => rfl
  | cons y ys ih =>
    unfold insertStr
    split
    · simp
    · simp [ih]

theorem length_sortStrings (l : List String) :
    (sortStrings l).length = l.length := by
  induction l with
  | nil => rfl
  | cons x xs ih => simp [sortStrings, length_insertStr, ih]

/-- C7: `generate_manufacturing_parameters_file` writes a flat key-value
file holding exactly its 22 fixed keys, each as a `[KEY]` line followed by a
value line; NUMBER OF LAYERS equals the count of listed files whose
lowercased name ends in .dxf or .txt; with a missing folder or no matching
files it prints a message and writes nothing. -/
theorem C7_parameters_file_exact (path out pn : String) (listing : List String) (lt : ℚ) :
    generateManufacturingParametersFile path none out pn lt
      = (none, ["Error: Input DXF folder not found at " ++ quoteS path
                ++ ". Cannot generate parameters file."])
    ∧ generateManufacturingParametersFile path (some listing) out pn lt
      = (if (listing.filter matchesDxfOrTxt).length = 0 then
          (none, ["No DXF or TXT files found in " ++ quoteS path
                  ++ ". Cannot generate parameters file."])
        else
          (some [FLine.key "PART NAME", FLine.val (.s pn),
                 FLine.key "MINX", FLine.val (.q (mkRat (-79) 10)),
                 FLine.key "MAXX", FLine.val (.q (mkRat 79 10)),
                 FLine.key "MINY", FLine.val (.q (mkRat (-79) 10)),
                 FLine.key "MAXY", FLine.val (.q (mkRat 79 10)),
                 FLine.key "NUMBER OF LAYERS",
                   FLine.val (.i ((listing.filter matchesDxfOrTxt).length : ℤ)),
                 FLine.key "LAYER THICKNESS", FLine.val (.q lt),
                 FLine.key "HATCH POWER 1", FLine.val (.i 40),
                 FLine.key "HATCH SPEED 1", FLine.val (.i 170),
                 FLine.key "VBPP1", FLine.val (.i 1),
                 FLine.key "MAGNIFICATION 1", FLine.val (.q 1),
                 FLine.key "HATCH POWER 2", FLine.val (.i 42),
                 FLine.key "HATCH SPEED 2", FLine.val (.i 1202),
                 FLine.key "VBPP2", FLine.val (.i 2),
                 FLine.key "MAGNIFICATION 2", FLine.val (.q 1),
                 FLine.key "HATCH POWER 3", FLine.val (.i 43),
                 FLine.key "HATCH SPEED 3", FLine.val (.i 1203),
                 FLine.key "VBPP3", FLine.val (.i 3),
                 FLine.key "MAGNIFICATION 3", FLine.val (.q 1),
                 FLine.key "NUMBER OF PASSES", FLine.val (.i 1),
                 FLine.key "CONTOUR POWER", FLine.val (.i 11),
                 FLine.key "CONTOUR SPEED", FLine.val (.i 1001)],
           ["Successfully generated manufacturing parameters file: "
             ++ out ++ "/" ++ pn ++ "_auto_machine_parameters.txt"])) := by
  constructor
  · rfl
  · by_cases h : (listing.filter matchesDxfOrTxt).length = 0
    · rw [if_pos h]
      have hempty : (sortStrings (listing.filter matchesDxfOrTxt)).isEmpty = true := by
        cases hcase : sortStrings (listing.filter matchesDxfOrTxt) with
        | nil => rfl
        | cons a t =>
          have := length_sortStrings (listing.filter matchesDxfOrTxt)
          rw [hcase] at this
          simp [← this] at h
      simp only [generateManufacturingParametersFile, hempty, if_true]
    · rw [if_neg h]
      have hlen : (sortStrings (listing.filter matchesDxfOrTxt)).length ≠ 0 := by
        rw [length_sortStrings]
        exact h
      have hne : (sortStrings (listing.filter matchesDxfOrTxt)).isEmpty = false := by
        cases hcase : sortStrings (listing.filter matchesDxfOrTxt) with
        | nil =>
          rw [hcase] at hlen
          simp at hlen
        | cons a t => rfl
      simp only [generateManufacturingParametersFile, hne, Bool.false_eq_true, if_false]
      rw [length_sortStrings]
      simp [paramLines, fixedParameters]

theorem genAuto_fst (path out pn : String)
    (files : List (String × Except DxfError Msp)) (lt : ℚ)
    (ms : Option (List (String × PVal))) :
    (generateAutoParametersFile path (some files) out lt (some pn) ms).1
      = (if ((files.map Prod.fst).filter matchesDxfOrTxt).length = 0 then none
         else some (paramLines (applySettings
            (fixedParameters pn lt
              (((files.map Prod.fst).filter matchesDxfOrTxt).length : ℤ))
            (ms.getD [])))) := by
  by_cases h : ((files.map Prod.fst).filter matchesDxfOrTxt).length = 0
  · rw [if_pos h]
    have hempty : (sortStrings ((files.map Prod.fst).filter matchesDxfOrTxt)).isEmpty = true := by
      cases hcase : sortStrings ((files.map Prod.fst).filter matchesDxfOrTxt) with
      | nil => rfl
      | cons a t =>
        have := length_sortStrings ((files.map Prod.fst).filter matchesDxfOrTxt)
        rw [hcase] at this
        simp [← this] at h
    simp only [generateAutoParametersFile, hempty, if_true]
  · rw [if_neg h]
    have hlen : (sortStrings ((files.map Prod.fst).filter matchesDxfOrTxt)).length ≠ 0 := by
      rw [length_sortStrings]
      exact h
    have hne : (sortStrings ((files.map Prod.fst).filter matchesDxfOrTxt)).isEmpty = false := by
      cases hcase : sortStrings ((files.map Prod.fst).filter matchesDxfOrTxt) with
      | nil =>
        rw [hcase] at hlen
        simp at hlen
      | cons a t => rfl
    simp only [generateAutoParametersFile, hne, Bool.false_eq_true, if_false,
      length_sortStrings, Option.getD_some]

theorem dictSetItem_bbox_prefix (k : String) (v : PVal)
    (hk : k ≠ "MINX" ∧ k ≠ "MAXX" ∧ k ≠ "MINY" ∧ k ≠ "MAXY")
    (pnVal : PVal) (rest : List (String × PVal)) :
    ∃ pnVal2 rest2,
      dictSetItem (("PART NAME", pnVal) :: ("MINX", PVal.q (mkRat (-79) 10))
          :: ("MAXX", PVal.q (mkRat 79 10)) :: ("MINY", PVal.q (mkRat (-79) 10))
          :: ("MAXY", PVal.q (mkRat 79 10)) :: rest) k v
        = ("PART NAME", pnVal2) :: ("MINX", PVal.q (mkRat (-79) 10))
          :: ("MAXX", PVal.q (mkRat 79 10)) :: ("MINY", PVal.q (mkRat (-79) 10))
          :: ("MAXY", PVal.q (mkRat 79 10)) :: rest2 := by
  have hminx : (("MINX" : String) == k) = false :=
    beq_eq_false_iff_ne.mpr (Ne.symm hk.1)
  have hmaxx : (("MAXX" : String) == k) = false :=
    beq_eq_false_iff_ne.mpr (Ne.symm hk.2.1)
  have hminy : (("MINY" : String) == k) = false :=
    beq_eq_false_iff_ne.mpr (Ne.symm hk.2.2.1)
  have hmaxy : (("MAXY" : String) == k) = false :=
    beq_eq_false_iff_ne.mpr (Ne.symm hk.2.2.2)
  unfold dictSetItem
  split
  · by_cases hpn : (("PART NAME" : String) == k) = true
    · refine ⟨v, rest.map (fun e => if e.1 == k then (e.1, v) else e), ?_⟩
      simp [hpn, hminx, hmaxx, hminy, hmaxy]
      exact ⟨fun hcon => absurd (by simpa using hpn) hcon,
        fun hcon => absurd hcon.symm hk.1,
        fun hcon => absurd hcon.symm hk.2.1,
        fun hcon => absurd hcon.symm hk.2.2.1,
        fun hcon => absurd hcon.symm hk.2.2.2⟩
    · refine ⟨pnVal, rest.map (fun e => if e.1 == k then (e.1, v) else e), ?_⟩
      simp [hpn, hminx, hmaxx, hminy, hmaxy]
      exact ⟨fun hcon => absurd (beq_iff_eq.mpr hcon) hpn,
        fun hcon => absurd hcon.symm hk.1,
        fun hcon => absurd hcon.symm hk.2.1,
        fun hcon => absurd hcon.symm hk.2.2.1,
        fun hcon => absurd hcon.symm hk.2.2.2⟩
  · exact ⟨pnVal, rest ++ [(k, v)], by simp⟩

theorem applySettings_bbox_prefix : ∀ (msl : List (String × PVal)),
    (∀ kv ∈ msl, kv.1 ≠ "MINX" ∧ kv.1 ≠ "MAXX" ∧ kv.1 ≠ "MINY" ∧ kv.1 ≠ "MAXY") →
    ∀ (pnVal : PVal) (rest : List (String × PVal)),
    ∃ pnVal2 rest2,
      applySettings (("PART NAME", pnVal) :: ("MINX", PVal.q (mkRat (-79) 10))
          :: ("MAXX", PVal.q (mkRat 79 10)) :: ("MINY", PVal.q (mkRat (-79) 10))
          :: ("MAXY", PVal.q (mkRat 79 10)) :: rest) msl
        = ("PART NAME", pnVal2) :: ("MINX", PVal.q (mkRat (-79) 10))
          :: ("MAXX", PVal.q (mkRat 79 10)) :: ("MINY", PVal.q (mkRat (-79) 10))
          :: ("MAXY", PVal.q (mkRat 79 10)) :: rest2
  | [], _, pnVal, rest => ⟨pnVal, rest, rfl⟩
  | kv :: msl, hb, pnVal, rest => by
    obtain ⟨v2, r2, heq⟩ :=
      dictSetItem_bbox_prefix kv.1 kv.2 (hb kv (by simp)) pnVal rest
    have step : applySettings (("PART NAME", pnVal) :: ("MINX", PVal.q (mkRat (-79) 10))
          :: ("MAXX", PVal.q (mkRat 79 10)) :: ("MINY", PVal.q (mkRat (-79) 10))
          :: ("MAXY", PVal.q (mkRat 79 10)) :: rest) (kv :: msl)
        = applySettings (dictSetItem (("PART NAME", pnVal) :: ("MINX", PVal.q (mkRat (-79) 10))
          :: ("MAXX", PVal.q (mkRat 79 10)) :: ("MINY", PVal.q (mkRat (-79) 10))
          :: ("MAXY", PVal.q (mkRat 79 10)) :: rest) kv.1 kv.2) msl := rfl
    rw [step, heq]
    exact applySettings_bbox_prefix msl (fun kv2 h2 => hb kv2 (by simp [h2])) v2 r2

theorem paramLines_general : ∀ (ps : List (String × PVal)) (acc : List FLine),
    ps.foldl (fun acc kv => acc ++ [FLine.key kv.1, FLine.val kv.2]) acc
      = acc ++ ps.foldl (fun acc kv => acc ++ [FLine.key kv.1, FLine.val kv.2]) []
  | [], acc => by simp
  | kv :: ps, acc => by
    rw [List.foldl_cons, List.foldl_cons,
      paramLines_general ps (acc ++ [FLine.key kv.1, FLine.val kv.2]),
      paramLines_general ps ([] ++ [FLine.key kv.1, FLine.val kv.2])]
    simp

theorem paramLines_prefix (pnVal : PVal) (rest : List (String × PVal)) :
    paramLines (("PART NAME", pnVal) :: ("MINX", PVal.q (mkRat (-79) 10))
        :: ("MAXX", PVal.q (mkRat 79 10)) :: ("MINY", PVal.q (mkRat (-79) 10))
        :: ("MAXY", PVal.q (mkRat 79 10)) :: rest)
      = [FLine.key "PART NAME", FLine.val pnVal,
         FLine.key "MINX", FLine.val (PVal.q (mkRat (-79) 10)),
         FLine.key "MAXX", FLine.val (PVal.q (mkRat 79 10)),
         FLine.key "MINY", FLine.val (PVal.q (mkRat (-79) 10)),
         FLine.key "MAXY", FLine.val (PVal.q (mkRat 79 10))] ++ paramLines rest := by
  unfold paramLines
  rw [List.foldl_cons, List.foldl_cons, List.foldl_cons, List.foldl_cons, List.foldl_cons,
    paramLines_general rest]
  simp

/-- C8 (amended): the parameter file content written by
`generate_auto_parameters_file` depends only on the given part name, the
layer thickness, the machine-settings overrides and the count of matching
filenames: two runs over folders holding equally many matching files but
arbitrarily different DXF geometry write identical parameter files; and
whenever the machine-settings overrides do not override them, the MINX,
MAXX, MINY, MAXY values written are -7.9, 7.9, -7.9, 7.9, because the
bounding-box accumulation over the extracted segments is never executed. -/
theorem C8_auto_parameters_depend_only_on_count (path1 path2 out1 out2 pn : String)
    (files1 files2 : List (String × Except DxfError Msp)) (lt : ℚ)
    (ms : Option (List (String × PVal)))
    (h : ((files1.map Prod.fst).filter matchesDxfOrTxt).length
          = ((files2.map Prod.fst).filter matchesDxfOrTxt).length) :
    (generateAutoParametersFile path1 (some files1) out1 lt (some pn) ms).1
      = (generateAutoParametersFile path2 (some files2) out2 lt (some pn) ms).1
    ∧ (generateAutoParametersFile path1 (some files1) out1 lt (some pn) none).1
      = (if ((files1.map Prod.fst).filter matchesDxfOrTxt).length = 0 then none
         else some [FLine.key "PART NAME", FLine.val (.s pn),
                 FLine.key "MINX", FLine.val (.q (mkRat (-79) 10)),
                 FLine.key "MAXX", FLine.val (.q (mkRat 79 10)),
                 FLine.key "MINY", FLine.val (.q (mkRat (-79) 10)),
                 FLine.key "MAXY", FLine.val (.q (mkRat 79 10)),
                 FLine.key "NUMBER OF LAYERS",
                   FLine.val (.i (((files1.map Prod.fst).filter matchesDxfOrTxt).length : ℤ)),
                 FLine.key "LAYER THICKNESS", FLine.val (.q lt),
                 FLine.key "HATCH POWER 1", FLine.val (.i 40),
                 FLine.key "HATCH SPEED 1", FLine.val (.i 170),
                 FLine.key "VBPP1", FLine.val (.i 1),
                 FLine.key "MAGNIFICATION 1", FLine.val (.q 1),
                 FLine.key "HATCH POWER 2", FLine.val (.i 42),
                 FLine.key "HATCH SPEED 2", FLine.val (.i 1202),
                 FLine.key "VBPP2", FLine.val (.i 2),
                 FLine.key "MAGNIFICATION 2", FLine.val (.q 1),
                 FLine.key "HATCH POWER 3", FLine.val (.i 43),
                 FLine.key "HATCH SPEED 3", FLine.val (.i 1203),
                 FLine.key "VBPP3", FLine.val (.i 3),
                 FLine.key "MAGNIFICATION 3", FLine.val (.q 1),
                 FLine.key "NUMBER OF PASSES", FLine.val (.i 1),
                 FLine.key "CONTOUR POWER", FLine.val (.i 11),
                 FLine.key "CONTOUR SPEED", FLine.val (.i 1001)])
    ∧ (∀ msl : List (String × PVal),
        (∀ kv ∈ msl, kv.1 ≠ "MINX" ∧ kv.1 ≠ "MAXX" ∧ kv.1 ≠ "MINY" ∧ kv.1 ≠ "MAXY") →
        ((files1.map Prod.fst).filter matchesDxfOrTxt).length ≠ 0 →
        ∃ pnVal restLines,
          (generateAutoParametersFile path1 (some files1) out1 lt (some pn) (some msl)).1
            = some ([FLine.key "PART NAME", FLine.val pnVal,
                     FLine.key "MINX", FLine.val (PVal.q (mkRat (-79) 10)),
                     FLine.key "MAXX", FLine.val (PVal.q (mkRat 79 10)),
                     FLine.key "MINY", FLine.val (PVal.q (mkRat (-79) 10)),
                     FLine.key "MAXY", FLine.val (PVal.q (mkRat 79 10))] ++ restLines)) := by
  refine ⟨?_, ?_, ?_⟩
  · rw [genAuto_fst, genAuto_fst, h]
  · rw [genAuto_fst]
    by_cases h0 : ((files1.map Prod.fst).filter matchesDxfOrTxt).length = 0
    · rw [if_pos h0, if_pos h0]
    · rw [if_neg h0, if_neg h0]
      simp [paramLines, fixedParameters, applySettings]
  · intro msl hbb hne
    have hfix : fixedParameters pn lt
        (((files1.map Prod.fst).filter matchesDxfOrTxt).length : ℤ)
        = ("PART NAME", PVal.s pn) :: ("MINX", PVal.q (mkRat (-79) 10))
          :: ("MAXX", PVal.q (mkRat 79 10)) :: ("MINY", PVal.q (mkRat (-79) 10))
          :: ("MAXY", PVal.q (mkRat 79 10))
          :: [("NUMBER OF LAYERS",
                PVal.i (((files1.map Prod.fst).filter matchesDxfOrTxt).length : ℤ)),
              ("LAYER THICKNESS", PVal.q lt), ("HATCH POWER 1", PVal.i 40),
              ("HATCH SPEED 1", PVal.i 170), ("VBPP1", PVal.i 1),
              ("MAGNIFICATION 1", PVal.q 1), ("HATCH POWER 2", PVal.i 42),
              ("HATCH SPEED 2", PVal.i 1202), ("VBPP2", PVal.i 2),
              ("MAGNIFICATION 2", PVal.q 1), ("HATCH POWER 3", PVal.i 43),
              ("HATCH SPEED 3", PVal.i 1203), ("VBPP3", PVal.i 3),
              ("MAGNIFICATION 3", PVal.q 1), ("NUMBER OF PASSES", PVal.i 1),
              ("CONTOUR POWER", PVal.i 11), ("CONTOUR SPEED", PVal.i 1001)] := rfl
    obtain ⟨v2, r2, heq⟩ := applySettings_bbox_prefix msl hbb (PVal.s pn)
      [("NUMBER OF LAYERS",
          PVal.i (((files1.map Prod.fst).filter matchesDxfOrTxt).length : ℤ)),
       ("LAYER THICKNESS", PVal.q lt), ("HATCH POWER 1", PVal.i 40),
       ("HATCH SPEED 1", PVal.i 170), ("VBPP1", PVal.i 1),
       ("MAGNIFICATION 1", PVal.q 1), ("HATCH POWER 2", PVal.i 42),
       ("HATCH SPEED 2", PVal.i 1202), ("VBPP2", PVal.i 2),
       ("MAGNIFICATION 2", PVal.q 1), ("HATCH POWER 3", PVal.i 43),
       ("HATCH SPEED 3", PVal.i 1203), ("VBPP3", PVal.i 3),
       ("MAGNIFICATION 3", PVal.q 1), ("NUMBER OF PASSES", PVal.i 1),
       ("CONTOUR POWER", PVal.i 11), ("CONTOUR SPEED", PVal.i 1001)]
    refine ⟨v2, paramLines r2, ?_⟩
    rw [genAuto_fst, if_neg hne]
    simp only [Option.getD_some]
    rw [hfix, heq, paramLines_prefix]

/-- Witness for the amended C8: two concrete one-file folders with different
names and different geometry produce the same file content, and a concrete
override touching only HATCH POWER 1 leaves the MINX/MAXX/MINY/MAXY lines at
their hardcoded values. -/
theorem C8_auto_parameters_depend_only_on_count_witness :
    (((([(("a.dxf" : String),
            (Except.ok [Entity.line (0, 0) (1, 1)] : Except DxfError Msp))]).map
          Prod.fst).filter matchesDxfOrTxt).length
        = ((([(("b.txt" : String),
            (Except.error DxfError.structureError : Except DxfError Msp))]).map
          Prod.fst).filter matchesDxfOrTxt).length)
    ∧ (generateAutoParametersFile "p1" (some [("a.dxf", .ok [Entity.line (0, 0) (1, 1)])])
          "o1" (mkRat 3 100) (some "p") none).1
      = (generateAutoParametersFile "p2"
          (some [("b.txt", .error DxfError.structureError)]) "o2" (mkRat 3 100)
          (some "p") none).1
    ∧ (∀ kv ∈ ([(("HATCH POWER 1" : String), PVal.i 45)] : List (String × PVal)),
        kv.1 ≠ "MINX" ∧ kv.1 ≠ "MAXX" ∧ kv.1 ≠ "MINY" ∧ kv.1 ≠ "MAXY")
    ∧ (((([(("a.dxf" : String),
            (Except.ok [Entity.line (0, 0) (1, 1)] : Except DxfError Msp))]).map
          Prod.fst).filter matchesDxfOrTxt).length ≠ 0)
    ∧ (∃ pnVal restLines,
        (generateAutoParametersFile "p1" (some [("a.dxf", .ok [Entity.line (0, 0) (1, 1)])])
            "o1" (mkRat 3 100) (some "p") (some [("HATCH POWER 1", PVal.i 45)])).1
          = some ([FLine.key "PART NAME", FLine.val pnVal,
                   FLine.key "MINX", FLine.val (PVal.q (mkRat (-79) 10)),
                   FLine.key "MAXX", FLine.val (PVal.q (mkRat 79 10)),
                   FLine.key "MINY", FLine.val (PVal.q (mkRat (-79) 10)),
                   FLine.key "MAXY", FLine.val (PVal.q (mkRat 79 10))] ++ restLines)) :=
  ⟨by decide,
   (C8_auto_parameters_depend_only_on_count "p1" "p2" "o1" "o2" "p"
      [("a.dxf", .ok [Entity.line (0, 0) (1, 1)])]
      [("b.txt", .error DxfError.structureError)] (mkRat 3 100) none
      (by decide)).1,
   by decide,
   by decide,
   (C8_auto_parameters_depend_only_on_count "p1" "p2" "o1" "o2" "p"
      [("a.dxf", .ok [Entity.line (0, 0) (1, 1)])]
      [("b.txt", .error DxfError.structureError)] (mkRat 3 100) none
      (by decide)).2.2 [("HATCH POWER 1", PVal.i 45)] (by decide) (by decide)⟩

/-- C8, literal claim refuted: MINX is not always -7.9 — a machine-settings
override replaces it.  At a one-file folder with `machine_settings`
containing MINX = 0, the fourth written line is the MINX value 0, not -7.9. -/
theorem C8_minx_not_always_counterexample :
    ((generateAutoParametersFile "folder" (some [("a.dxf", .ok [])]) "out.txt"
        (mkRat 3 100) (some "p") (some [("MINX", PVal.i 0)])).1.map
      (fun lines => lines.getD 3 (FLine.key ""))) = some (FLine.val (PVal.i 0))
    ∧ FLine.val (PVal.i 0) ≠ FLine.val (PVal.q (mkRat (-79) 10)) := by
  constructor
  · decide
  · decide

theorem pairHatchLines_even : ∀ (coords : List Point), coords.length % 2 = 0 →
    ∃ es, pairHatchLines coords = .ok es ∧ es.length = coords.length / 2
      ∧ es.all isLineEntity = true
  | [], _ => ⟨[], rfl, rfl, rfl⟩
  | [_], h => by simp at h
  | a :: b :: rest, h => by
    have h2 : rest.length % 2 = 0 := by
      simp only [List.length_cons] at h
      omega
    obtain ⟨es, he, hl, hall⟩ := pairHatchLines_even rest h2
    refine ⟨Entity.line a b :: es, ?_, ?_, ?_⟩
    · simp only [pairHatchLines, he]
    · simp only [List.length_cons, hl]
      omega
    · simp only [List.all_cons, hall, isLineEntity, Bool.and_self]

theorem pairHatchLines_odd : ∀ (coords : List Point), coords.length % 2 = 1 →
    pairHatchLines coords
      = .error "ValueError: not enough values to unpack (expected 2, got 1)"
  | [], h => by simp at h
  | [_], _ => rfl
  | a :: b :: rest, h => by
    have h2 : rest.length % 2 = 1 := by
      simp only [List.length_cons] at h
      omega
    have hrec := pairHatchLines_odd rest h2
    simp only [pairHatchLines, hrec]

theorem hatchEntitiesOf_even : ∀ (gs : List (List Point)),
    (∀ g ∈ gs, g.length % 2 = 0) → ∃ es, hatchEntitiesOf gs = .ok es
  | [], _ => ⟨[], rfl⟩
  | g :: gs, h => by
    obtain ⟨es1, he1, _, _⟩ := pairHatchLines_even g (h g (by simp))
    obtain ⟨es2, he2⟩ := hatchEntitiesOf_even gs (fun g0 hg0 => h g0 (by simp [hg0]))
    exact ⟨es1 ++ es2, by simp only [hatchEntitiesOf, he1, he2]⟩

/-- C9: `export_layer_to_dxf` unpacks hatch coordinates two at a time; a
geometry with an even number of coordinates yields exactly `len / 2` LINE
entities and never fails (so a layer all of whose hatch geometries have even
length exports successfully), while a geometry with an odd number of
coordinates makes the final unpacking raise a ValueError. -/
theorem C9_hatch_pairwise_unpack (coords : List Point) (layer : PyLayer) :
    (coords.length % 2 = 0 →
      ∃ es, pairHatchLines coords = .ok es ∧ es.length = coords.length / 2
        ∧ es.all isLineEntity = true)
    ∧ (coords.length % 2 = 1 →
        pairHatchLines coords
          = .error "ValueError: not enough values to unpack (expected 2, got 1)")
    ∧ ((∀ g ∈ layer.hatches, g.length % 2 = 0) →
        ∃ es, exportLayerToDxf layer = .ok es) := by
  refine ⟨pairHatchLines_even coords, pairHatchLines_odd coords, ?_⟩
  intro hall
  obtain ⟨es, he⟩ := hatchEntitiesOf_even layer.hatches hall
  refine ⟨layer.contours.map (fun pts => Entity.lwpolyline pts true) ++ es
    ++ (layer.pointsGeoms.map (fun ps =>
          ps.map (fun p => Entity.circle p (mkRat 2 100)))).flatten, ?_⟩
  simp only [exportLayerToDxf, he]

/-- Witness for C9 at concrete even and odd hatch geometries. -/
theorem C9_hatch_pairwise_unpack_witness :
    (([((0 : ℚ), (0 : ℚ)), (1, 1)] : List Point).length % 2 = 0
      ∧ ∃ es, pairHatchLines [((0 : ℚ), (0 : ℚ)), (1, 1)] = .ok es
          ∧ es.length = ([((0 : ℚ), (0 : ℚ)), (1, 1)] : List Point).length / 2
          ∧ es.all isLineEntity = true)
    ∧ (([((0 : ℚ), (0 : ℚ)), (1, 1), (2, 2)] : List Point).length % 2 = 1
      ∧ pairHatchLines [((0 : ℚ), (0 : ℚ)), (1, 1), (2, 2)]
          = .error "ValueError: not enough values to unpack (expected 2, got 1)")
    ∧ ((∀ g ∈ (PyLayer.mk [] [[((0 : ℚ), (0 : ℚ)), (1, 1)]] []).hatches,
          g.length % 2 = 0)
      ∧ ∃ es, exportLayerToDxf (PyLayer.mk [] [[((0 : ℚ), (0 : ℚ)), (1, 1)]] []) = .ok es) :=
  ⟨⟨by decide,
    (C9_hatch_pairwise_unpack [((0 : ℚ), (0 : ℚ)), (1, 1)]
      (PyLayer.mk [] [] [])).1 (by decide)⟩,
   ⟨by decide,
    (C9_hatch_pairwise_unpack [((0 : ℚ), (0 : ℚ)), (1, 1), (2, 2)]
      (PyLayer.mk [] [] [])).2.1 (by decide)⟩,
   ⟨by decide,
    (C9_hatch_pairwise_unpack [] (PyLayer.mk [] [[((0 : ℚ), (0 : ℚ)), (1, 1)]] [])).2.2
      (by decide)⟩⟩

theorem sliceExportLoop_general {α : Type} (layerGeometryAt : ℚ → List α)
    (modelName : String) : ∀ (zs : List ℚ) (i0 : ℕ) (acc : List String),
    (zs.foldl (fun st zPos =>
        let files :=
          if (layerGeometryAt zPos).isEmpty then st.2
          else st.2 ++ [modelName ++ "_layer" ++ toString st.1 ++ ".dxf"]
        (st.1 + 1, files)) (i0, acc)).2
      = acc ++ ((zs.enumFrom i0).filter
          (fun iz => !(layerGeometryAt iz.2).isEmpty)).map
            (fun iz => modelName ++ "_layer" ++ toString iz.1 ++ ".dxf")
  | [], i0, acc => by simp
  | z :: zs, i0, acc => by
    have hrec := sliceExportLoop_general layerGeometryAt modelName zs (i0 + 1)
    rw [List.foldl_cons, List.enumFrom_cons, List.filter_cons]
    show (List.foldl _ (i0 + 1,
        if (layerGeometryAt z).isEmpty then acc
        else acc ++ [modelName ++ "_layer" ++ toString i0 ++ ".dxf"]) zs).2 = _
    cases hg : (layerGeometryAt z).isEmpty with
    | true =>
      rw [if_pos rfl, if_neg (by simp)]
      exact hrec acc
    | false =>
      rw [if_neg (by simp), if_pos (by simp), List.map_cons,
        hrec (acc ++ [modelName ++ "_layer" ++ toString i0 ++ ".dxf"])]
      simp [List.append_assoc]

/-- C10: `slice_and_export_raw_dxfs` warns and exports nothing when the
overall maximum Z is at most the overall minimum Z; otherwise a raw layer
DXF is written exactly for the z positions with non-empty layer geometry,
while the layer index counts every z position, so exported file indices can
have gaps. -/
theorem C10_slice_export_gaps (α : Type) (minZpart maxZpart : ℚ)
    (supportBounds : Option (ℚ × ℚ)) (layerGeometryAt : ℚ → List α)
    (modelName : String) :
    sliceAndExportRawDxfs minZpart maxZpart supportBounds layerGeometryAt modelName
      = (if max maxZpart (match supportBounds with | some b => b.2 | none => maxZpart)
            ≤ min minZpart (match supportBounds with | some b => b.1 | none => minZpart)
         then none
         else some ((((arangeQ
              (min minZpart (match supportBounds with | some b => b.1 | none => minZpart))
              ((max maxZpart (match supportBounds with | some b => b.2 | none => maxZpart))
                + LAYER_THICKNESS / 2) LAYER_THICKNESS).enum).filter
                (fun iz => !(layerGeometryAt iz.2).isEmpty)).map
              (fun iz => modelName ++ "_layer" ++ toString iz.1 ++ ".dxf"))) := by
  have hLT : (0 : ℚ) < LAYER_THICKNESS := by
    rw [LAYER_THICKNESS, Rat.mkRat_eq_divInt, Rat.divInt_eq_div]
    norm_num
  set minZsupport := (match supportBounds with | some b => b.1 | none => minZpart) with hmins
  set maxZsupport := (match supportBounds with | some b => b.2 | none => maxZpart) with hmaxs
  set minZoverall := min minZpart minZsupport with hmino
  set maxZoverall := max maxZpart maxZsupport with hmaxo
  by_cases h : maxZoverall ≤ minZoverall
  · rw [if_pos h]
    unfold sliceAndExportRawDxfs
    rw [if_neg (by
      intro hcon
      exact absurd hcon.2 (not_lt.mpr h))]
    rw [if_pos h]
  · rw [if_neg h]
    have hlt : minZoverall < maxZoverall := not_le.mp h
    have hceil : (0 : ℤ) < ⌈(maxZoverall - minZoverall) / LAYER_THICKNESS⌉ :=
      Int.ceil_pos.mpr (div_pos (sub_pos.mpr hlt) hLT)
    unfold sliceAndExportRawDxfs
    rw [if_neg (by
      intro hcon
      rw [hcon.1] at hceil
      exact absurd hceil (lt_irrefl 0))]
    rw [if_neg h]
    show some (sliceExportLoop layerGeometryAt modelName
        (arangeQ minZoverall (maxZoverall + LAYER_THICKNESS / 2) LAYER_THICKNESS)) = _
    congr 1
    unfold sliceExportLoop
    rw [sliceExportLoop_general layerGeometryAt modelName _ 0 [], List.enum_eq_enumFrom]
    rfl
